import Mathlib

/-!
Shallow embedding of the digitalghar backend's order lifecycle and
download-entitlement engine, translated from the repository source
(`src/routes/order.routes.ts`, `src/routes/cart.routes.ts`,
`src/routes/admin.routes.ts`, `src/services/upi.service.ts`), together
with theorems settling the specification's claims about it.

Conventions:
* Timestamps are natural numbers (milliseconds since epoch).
* Prices are integers.
* The database row for a given primary key is modelled as an
  `Option` of the record type (`none` = no such row).
* Each HTTP handler becomes a pure function returning an `Except`
  of an error tag mirroring the handler's error responses, paired
  with the updated state where the handler mutates state.
-/

namespace DigitalGhar

/-- Values of `paymentStatus` on the Prisma `Order` model. -/
inductive PaymentStatus where
  | PENDING
  | SUBMITTED
  | VERIFIED
  | FAILED
deriving DecidableEq, Repr

/-- Values of `orderStatus` on the Prisma `Order` model. -/
inductive OrderStatus where
  | PENDING
  | COMPLETED
  | CANCELLED
deriving DecidableEq, Repr

/-- An `OrderItem` row: product snapshot plus download accounting,
as created by `router.post('/')` in `order.routes.ts` and mutated by
the verify handler and the download handler. -/
structure OrderItem where
  id : Nat
  productId : String
  productTitle : String
  productPrice : Int
  downloadCount : Nat
  downloadLimit : Nat
  expiresAt : Option Nat
  downloadUrl : Option String
deriving DecidableEq, Repr

/-- An `Order` row together with its items (`include: { items: ... }`). -/
structure Order where
  id : Nat
  orderNumber : String
  userId : Nat
  userEmail : String
  totalAmount : Int
  paymentStatus : PaymentStatus
  orderStatus : OrderStatus
  utrNumber : Option String
  paidAt : Option Nat
  items : List OrderItem
deriving DecidableEq, Repr

/-- A `Product` row, restricted to the fields the order/cart routes read. -/
structure Product where
  id : String
  title : String
  price : Int
  isActive : Bool
  fileUrl : String
deriving DecidableEq, Repr

/-- Error responses of the order-lifecycle handlers. -/
inductive OrderErr where
  | OrderNotFound
  | ValidationError
  | AlreadyVerified
  | EmptyCart
  | NoValidProducts
  | ServerError
deriving DecidableEq, Repr

/-- Milliseconds in one day. -/
def dayMs : Nat := 24 * 3600 * 1000

/-! ### submit-utr handler (`router.post('/:orderId/submit-utr')`)

The handler zod-validates `utrNumber` (`min(5).max(50)`), then runs
`prisma.order.findFirst({ where: { id, userId, paymentStatus: 'PENDING' } })`;
if no row matches it answers 404 `Order not found or already processed`,
otherwise it updates the row with the UTR and status `SUBMITTED`.
`row` is the DB row with the requested order id, if any. -/
def submitUtr (callerId : Nat) (utr : String) (row : Option Order) :
    Except OrderErr Order :=
  if utr.length < 5 ∨ 50 < utr.length then
    .error .ValidationError
  else
    match row with
    | none => .error .OrderNotFound
    | some o =>
      if o.userId = callerId ∧ o.paymentStatus = .PENDING then
        .ok { o with utrNumber := some utr, paymentStatus := .SUBMITTED }
      else
        .error .OrderNotFound

/-! ### admin verify handler (`router.post('/orders/:id/verify')`)

Refuses only when the order is missing (404) or already `VERIFIED`
(400 `Order already verified`); otherwise sets `paymentStatus: 'VERIFIED'`,
`orderStatus: 'COMPLETED'`, `paidAt: new Date()`, then updates every item
with a cached signed download URL and `expiresAt` = now + 7 days. -/
def verifyOrder (now : Nat) (mkUrl : String → String) (row : Option Order) :
    Except OrderErr Order :=
  match row with
  | none => .error .OrderNotFound
  | some o =>
    if o.paymentStatus = .VERIFIED then
      .error .AlreadyVerified
    else
      .ok { o with
              paymentStatus := .VERIFIED
              orderStatus := .COMPLETED
              paidAt := some now
              items := o.items.map fun it =>
                { it with
                    downloadUrl := some (mkUrl it.productId)
                    expiresAt := some (now + 7 * dayMs) } }

/-! ### admin reject handler (`router.post('/orders/:id/reject')`)

Runs `prisma.order.update` unconditionally: no status guard at all.
It fails only if the row is missing (the update throws, caught as 500). -/
def rejectOrder (row : Option Order) : Except OrderErr Order :=
  match row with
  | none => .error .ServerError
  | some o =>
    .ok { o with paymentStatus := .FAILED, orderStatus := .CANCELLED }

/-- One operation of the payment-status state machine. -/
inductive PayOp where
  | submit (callerId : Nat) (utr : String)
  | verify (now : Nat)
  | reject
deriving DecidableEq, Repr

/-- Apply one operation to an existing order; a handler that answers
with an error leaves the row unchanged. `mkUrl` stands for
`getSignedDownloadUrl` (an external collaborator). -/
def applyPayOp (mkUrl : String → String) (op : PayOp) (o : Order) : Order :=
  match op with
  | .submit callerId utr =>
    match submitUtr callerId utr (some o) with
    | .ok o2 => o2
    | .error _ => o
  | .verify now =>
    match verifyOrder now mkUrl (some o) with
    | .ok o2 => o2
    | .error _ => o
  | .reject =>
    match rejectOrder (some o) with
    | .ok o2 => o2
    | .error _ => o

/-- Apply a sequence of operations, left to right. -/
def applyPayOps (mkUrl : String → String) (ops : List PayOp) (o : Order) :
    Order :=
  ops.foldl (fun acc op => applyPayOp mkUrl op acc) o

/-! ### download handler (`router.get('/download/:orderItemId')`)

`prisma.orderItem.findFirst` with
`where: { id, order: { userId, paymentStatus: 'VERIFIED' } }` joined to
the parent order and the product's `fileUrl`; then the limit check, the
expiry check, `getSignedDownloadUrl(fileUrl, 3600)`, and
`await Promise.all([increment downloadCount, create DownloadLog,
increment product downloadCount])`.  The three writes run as independent
promises: a rejection of any one of them rejects the `Promise.all`,
lands in the `catch`, and the handler answers 500 — but the writes that
did succeed have already been committed. -/

/-- Outcome of the download handler: one constructor per HTTP response. -/
inductive DlOutcome where
  | notAvailable
  | limitReached
  | linkExpired
  | serverError
  | ok (url : String) (remaining : Int)
deriving DecidableEq, Repr

/-- The download handler.  `row` is the `OrderItem` row with the
requested id, joined to its parent order and product `fileUrl`
(`none` = no such row); the `where` clause on the parent order is
applied here, as in the Prisma query.  `countIncrFails`, `auditFails`,
`prodIncrFails` say which of the three parallel writes reject.  Returns
the outcome and the `OrderItem` row after the request. -/
def requestDownload (callerId now : Nat) (mkUrl : String → Nat → String)
    (countIncrFails auditFails prodIncrFails : Bool)
    (row : Option (OrderItem × Order × String)) :
    DlOutcome × Option OrderItem :=
  match row with
  | none => (.notAvailable, none)
  | some (oi, ord, fileUrl) =>
    if ¬ (ord.userId = callerId ∧ ord.paymentStatus = .VERIFIED) then
      (.notAvailable, some oi)
    else if oi.downloadLimit ≤ oi.downloadCount then
      (.limitReached, some oi)
    else if oi.expiresAt.any (fun e => decide (e < now)) then
      (.linkExpired, some oi)
    else
      let url := mkUrl fileUrl 3600
      let oi2 := if countIncrFails then oi
                 else { oi with downloadCount := oi.downloadCount + 1 }
      if countIncrFails ∨ auditFails ∨ prodIncrFails then
        (.serverError, some oi2)
      else
        (.ok url ((oi.downloadLimit : Int) - (oi.downloadCount : Int) - 1),
         some oi2)

/-! ### cart store (`cart.routes.ts`)

The cart for one owner key is `none` (key absent) or the stored JSON
array of product ids.  TTL bookkeeping (`setex` with 7-day expiry) does
not change the stored value and is not modelled. -/

/-- Error responses of the cart handlers. -/
inductive CartErr where
  | ProductIdRequired
  | ProductNotFound
  | DuplicateItem
  | CartEmpty
deriving DecidableEq, Repr

/-- Handler `router.post('/add')`: requires a product id, an existing active
product, and no duplicate; appends and stores. -/
def cartAdd (catalog : List Product) (pid : String)
    (cart : Option (List String)) : Except CartErr (List String) :=
  if pid = "" then .error .ProductIdRequired
  else
    match catalog.find? (fun p => p.id = pid) with
    | none => .error .ProductNotFound
    | some p =>
      if ¬ p.isActive then .error .ProductNotFound
      else
        let ids := cart.getD []
        if pid ∈ ids then .error .DuplicateItem
        else .ok (ids ++ [pid])

/-- Handler `router.delete('/remove/:productId')`: answers 404 `Cart is empty`
when no key is stored; otherwise filters the id out, deleting the key
when the remainder is empty. -/
def cartRemove (pid : String) (cart : Option (List String)) :
    Except CartErr (Option (List String)) :=
  match cart with
  | none => .error .CartEmpty
  | some ids =>
    let ids2 := ids.filter (fun i => i ≠ pid)
    if ids2 = [] then .ok none else .ok (some ids2)

/-- Handler `router.get('/')` (cart view): resolves the stored ids against the
catalog, keeping only active products. -/
def cartGet (catalog : List Product) (cart : Option (List String)) :
    List Product :=
  match cart with
  | none => []
  | some ids => catalog.filter (fun p => p.id ∈ ids ∧ p.isActive)

/-! ### create-order handler (`router.post('/')` in `order.routes.ts`) -/

/-- The products that `prisma.product.findMany({ where: { id: { in: ids },
isActive: true } })` resolves from a cart's ids. -/
def activeCartProducts (catalog : List Product) (ids : List String) :
    List Product :=
  catalog.filter (fun p => p.id ∈ ids ∧ p.isActive)

/-- The `OrderItem` created for one resolved product: `downloadLimit: 5`
and price/title snapshotted, per the handler's `items.create` payload.
`downloadCount = 0` is the Prisma-schema default (the schema file is not
part of the sources; the spec fixes the default at 0). -/
def mkOrderItem (p : Product) : OrderItem :=
  { id := 0
    productId := p.id
    productTitle := p.title
    productPrice := p.price
    downloadCount := 0
    downloadLimit := 5
    expiresAt := none
    downloadUrl := none }

/-- The create-order handler with its two fallible external steps:
`persistFails` = `prisma.order.create` rejects, `qrFails` =
`generateUPIQRCode` rejects (each lands in the `catch`, answering 500).
`redis.del(cartKey)` runs only after both succeed.  Returns the
response and the cart key's state after the request. -/
def createOrderRun (userId : Nat) (userEmail orderNumber : String)
    (catalog : List Product) (persistFails qrFails : Bool)
    (cart : Option (List String)) :
    Except OrderErr Order × Option (List String) :=
  match cart with
  | none => (.error .EmptyCart, cart)
  | some ids =>
    if ids = [] then (.error .EmptyCart, cart)
    else
      let ps := activeCartProducts catalog ids
      if ps = [] then (.error .NoValidProducts, cart)
      else if persistFails then (.error .ServerError, cart)
      else if qrFails then (.error .ServerError, cart)
      else
        (.ok { id := 0
               orderNumber := orderNumber
               userId := userId
               userEmail := userEmail
               totalAmount := (ps.map Product.price).sum
               paymentStatus := .PENDING
               orderStatus := .PENDING
               utrNumber := none
               paidAt := none
               items := ps.map mkOrderItem },
         none)

/-- The create-order handler on the happy external path. -/
def createOrder (userId : Nat) (userEmail orderNumber : String)
    (catalog : List Product) (cart : Option (List String)) :
    Except OrderErr Order :=
  (createOrderRun userId userEmail orderNumber catalog false false cart).1

/-! ### order-number generator (`generateOrderNumber` in
`upi.service.ts`)

`Math.random().toString(36).substring(2, 8).toUpperCase()` takes up to
six characters after the leading `"0."`.  A random value is modelled by
the base-36 fraction digits its `toString(36)` prints: the shortest
round-trip representation, so no trailing zero digit and the empty list
for the value 0 (`(0).toString(36)` is `"0"`). -/

/-- One uppercased base-36 digit character, as `toUpperCase` leaves it. -/
def base36Char (d : Nat) : Char :=
  if d < 10 then Char.ofNat (48 + d) else Char.ofNat (65 + (d - 10))

/-- Computes `substring(2, 8).toUpperCase()` of `r.toString(36)`: the first six
fraction digits, or all of them when fewer than six are printed. -/
def randomSuffix (ds : List Nat) : String :=
  String.mk ((ds.take 6).map base36Char)

/-- Computes `String(date.getMonth() + 1).padStart(2, '0')` for a 1-based month. -/
def pad2 (m : Nat) : String :=
  if m < 10 then "0" ++ toString m else toString m

/-- Function `generateOrderNumber`, with the clock's year and 1-based month and
the random value's printed base-36 fraction digits as inputs. -/
def generateOrderNumber (year month : Nat) (ds : List Nat) : String :=
  "ORD-" ++ toString year ++ pad2 month ++ "-" ++ randomSuffix ds

/-- A concrete order item used by concrete-input theorems: no
downloads yet, the default limit of 5, and no expiry set. -/
def sampleItem : OrderItem :=
  { id := 11
    productId := "prodA"
    productTitle := "A"
    productPrice := 100
    downloadCount := 0
    downloadLimit := 5
    expiresAt := none
    downloadUrl := none }

/-- A concrete order used by concrete-input theorems. -/
def sampleOrder : Order :=
  { id := 1
    orderNumber := "ORD-202610-ABCDEF"
    userId := 7
    userEmail := "user@example.com"
    totalAmount := 100
    paymentStatus := .PENDING
    orderStatus := .PENDING
    utrNumber := none
    paidAt := none
    items := [sampleItem] }

/-- The concrete order after payment verification. -/
def verifiedOrder : Order :=
  { sampleOrder with paymentStatus := .VERIFIED
                     orderStatus := .COMPLETED }

/-- The concrete item after entitlement activation at time 0 with the
identity URL signer: cached URL and a 7-day expiry. -/
def activatedItem : OrderItem :=
  { sampleItem with downloadUrl := some "prodA"
                    expiresAt := some (7 * dayMs) }

/-- The concrete order after `verifyOrder` at time 0. -/
def activatedOrder : Order :=
  { sampleOrder with paymentStatus := .VERIFIED
                     orderStatus := .COMPLETED
                     paidAt := some 0
                     items := [activatedItem] }

/-- Whether an `Except` is a success, as a `Bool`. -/
def isOk {ε α : Type} (e : Except ε α) : Bool :=
  match e with
  | .ok _ => true
  | .error _ => false

/-- Concrete active product "productA" at price 100. -/
def prodA : Product :=
  { id := "pA", title := "A", price := 100, isActive := true
    fileUrl := "fileA" }

/-- Concrete product "productB" at price 50, deactivated before
checkout. -/
def prodB : Product :=
  { id := "pB", title := "B", price := 50, isActive := false
    fileUrl := "fileB" }

/-- Concrete catalog holding `prodA` (active) and `prodB` (inactive). -/
def catalogAB : List Product := [prodA, prodB]

/-- Concrete active product "p1" for the cart round-trip. -/
def cartP1 : Product :=
  { id := "p1", title := "P1", price := 10, isActive := true
    fileUrl := "f1" }

/-- Concrete active product "p2" for the cart round-trip. -/
def cartP2 : Product :=
  { id := "p2", title := "P2", price := 20, isActive := true
    fileUrl := "f2" }

/-! ## Theorems -/

/-- One step of the payment state machine cannot leave the set
`{VERIFIED, FAILED}`: `submitUtr` only fires on `PENDING`, `verifyOrder`
lands in `VERIFIED`, `rejectOrder` lands in `FAILED`. -/
theorem applyPayOp_mem_closed (mkUrl : String → String) (op : PayOp)
    (o : Order)
    (h : o.paymentStatus = .VERIFIED ∨ o.paymentStatus = .FAILED) :
    (applyPayOp mkUrl op o).paymentStatus = .VERIFIED ∨
    (applyPayOp mkUrl op o).paymentStatus = .FAILED := by
  cases op with
  | submit callerId utr =>
    have hpend : ¬ (o.userId = callerId ∧ o.paymentStatus = .PENDING) := by
      rcases h with h | h <;> simp [h]
    by_cases hlen : utr.length < 5 ∨ 50 < utr.length
    · simpa [applyPayOp, submitUtr, hlen] using h
    · simpa [applyPayOp, submitUtr, hlen, hpend] using h
  | verify now =>
    rcases h with h | h
    · simp [applyPayOp, verifyOrder, h]
    · simp [applyPayOp, verifyOrder, h]
  | reject =>
    simp [applyPayOp, rejectOrder]

/-- C1 (amended): for every order whose `paymentStatus` is `VERIFIED`
or `FAILED` and every sequence of submit/verify/reject operations, the
status stays inside the two-element set `{VERIFIED, FAILED}` — though
the individual states are not terminal (see the counterexample). -/
theorem payment_closed_set_c1 (mkUrl : String → String) (ops : List PayOp)
    (o : Order)
    (h : o.paymentStatus = .VERIFIED ∨ o.paymentStatus = .FAILED) :
    (applyPayOps mkUrl ops o).paymentStatus = .VERIFIED ∨
    (applyPayOps mkUrl ops o).paymentStatus = .FAILED := by
  induction ops generalizing o with
  | nil => exact h
  | cons op ops ih =>
    simpa [applyPayOps, List.foldl_cons] using
      ih (applyPayOp mkUrl op o) (applyPayOp_mem_closed mkUrl op o h)

/-- C1 witness: a `FAILED` order stays in `{VERIFIED, FAILED}` under a
concrete reject-then-verify sequence. -/
theorem payment_closed_set_c1_witness :
    (applyPayOps (fun s => s) [.reject, .verify 0]
        { sampleOrder with paymentStatus := .FAILED }).paymentStatus
      = .VERIFIED ∨
    (applyPayOps (fun s => s) [.reject, .verify 0]
        { sampleOrder with paymentStatus := .FAILED }).paymentStatus
      = .FAILED :=
  payment_closed_set_c1 (fun s => s) [.reject, .verify 0]
    { sampleOrder with paymentStatus := .FAILED } (Or.inr rfl)

/-- C1 counterexample: `VERIFIED` and `FAILED` are not terminal —
`verifyOrder` on a `FAILED` order sets it `VERIFIED` (the handler only
refuses orders already `VERIFIED`), and `rejectOrder` on a `VERIFIED`
order sets it `FAILED` (the handler has no status guard at all). -/
theorem payment_terminal_cex_c1 :
    (applyPayOp (fun s => s) (.verify 0)
        { sampleOrder with paymentStatus := .FAILED }).paymentStatus
      = .VERIFIED ∧
    (applyPayOp (fun s => s) .reject
        { sampleOrder with paymentStatus := .VERIFIED }).paymentStatus
      = .FAILED :=
  ⟨rfl, rfl⟩

/-- C5: for a UTR of 5–50 characters, `submitUtr` succeeds exactly when
the order exists, belongs to the caller, and is `PENDING` — storing the
UTR and moving the status to `SUBMITTED` — and in every other case
(missing row, wrong owner, or status not `PENDING`) it answers the same
`OrderNotFound`, performing no update; in particular a second submit on
the now-`SUBMITTED` order answers `OrderNotFound`. -/
theorem submit_utr_spec_c5 (callerId : Nat) (utr utr2 : String)
    (row : Option Order)
    (hlen : 5 ≤ utr.length ∧ utr.length ≤ 50)
    (hlen2 : 5 ≤ utr2.length ∧ utr2.length ≤ 50) :
    (∀ o, row = some o → o.userId = callerId → o.paymentStatus = .PENDING →
       submitUtr callerId utr row =
         .ok { o with utrNumber := some utr,
                      paymentStatus := .SUBMITTED } ∧
       submitUtr callerId utr2
           (some { o with utrNumber := some utr,
                          paymentStatus := .SUBMITTED }) =
         .error .OrderNotFound) ∧
    ((∀ o, row = some o →
        ¬ (o.userId = callerId ∧ o.paymentStatus = .PENDING)) →
      submitUtr callerId utr row = .error .OrderNotFound) := by
  have hif : ¬ (utr.length < 5 ∨ 50 < utr.length) := by omega
  have hif2 : ¬ (utr2.length < 5 ∨ 50 < utr2.length) := by omega
  constructor
  · intro o ho h1 h2
    subst ho
    constructor
    · simp [submitUtr, hif, h1, h2]
    · simp [submitUtr, hif2]
  · intro hno
    cases row with
    | none => simp [submitUtr, hif]
    | some o =>
      have := hno o rfl
      simp [submitUtr, hif, this]

/-- C5 witness: submitting UTR "UTR123456" on the concrete `PENDING`
order succeeds and flips it to `SUBMITTED`; a second submit on the
result answers `OrderNotFound`. -/
theorem submit_utr_spec_c5_witness :
    submitUtr 7 "UTR123456" (some sampleOrder) =
      .ok { sampleOrder with utrNumber := some "UTR123456",
                             paymentStatus := .SUBMITTED } ∧
    submitUtr 7 "UTR7890123"
        (some { sampleOrder with utrNumber := some "UTR123456",
                                 paymentStatus := .SUBMITTED }) =
      .error .OrderNotFound :=
  (submit_utr_spec_c5 7 "UTR123456" "UTR7890123" (some sampleOrder)
      (by decide) (by decide)).1 sampleOrder rfl rfl rfl

/-- C2: on an owned, `VERIFIED`, non-expired order item (and with the
three post-check writes succeeding), the download handler answers
`LimitReached` and leaves the item unchanged exactly when
`downloadCount >= downloadLimit`; otherwise it returns the signed URL
with `remainingDownloads = downloadLimit - downloadCount - 1` (the
post-increment difference) and increments `downloadCount` by exactly 1,
so the count never exceeds the limit. -/
theorem download_limit_spec_c2 (callerId now : Nat)
    (dl : String → Nat → String) (oi : OrderItem) (ord : Order)
    (fileUrl : String)
    (hown : ord.userId = callerId) (hver : ord.paymentStatus = .VERIFIED)
    (hexp : oi.expiresAt.any (fun e => decide (e < now)) = false) :
    (oi.downloadLimit ≤ oi.downloadCount →
       requestDownload callerId now dl false false false
           (some (oi, ord, fileUrl)) = (.limitReached, some oi)) ∧
    (oi.downloadCount < oi.downloadLimit →
       requestDownload callerId now dl false false false
           (some (oi, ord, fileUrl)) =
         (.ok (dl fileUrl 3600)
            ((oi.downloadLimit : Int) - (oi.downloadCount : Int) - 1),
          some { oi with downloadCount := oi.downloadCount + 1 }) ∧
       (oi.downloadLimit : Int) - (oi.downloadCount : Int) - 1 =
         (oi.downloadLimit : Int) - ((oi.downloadCount : Int) + 1) ∧
       oi.downloadCount + 1 ≤ oi.downloadLimit) := by
  constructor
  · intro hge
    simp [requestDownload, hown, hver, hge]
  · intro hlt
    refine ⟨?_, by omega, by omega⟩
    simp [requestDownload, hown, hver, Nat.not_le.mpr hlt, hexp]

/-- C2 witness: the concrete fresh item (count 0, limit 5) on the
verified order yields the URL with 4 remaining downloads and count 1. -/
theorem download_limit_spec_c2_witness :
    sampleItem.downloadCount < sampleItem.downloadLimit ∧
    (requestDownload 7 1000 (fun f n => f ++ toString n) false false false
         (some (sampleItem, verifiedOrder, "fileA")) =
       (.ok ((fun f n => f ++ toString n) "fileA" 3600)
          ((sampleItem.downloadLimit : Int) -
             (sampleItem.downloadCount : Int) - 1),
        some { sampleItem with
                 downloadCount := sampleItem.downloadCount + 1 }) ∧
     (sampleItem.downloadLimit : Int) - (sampleItem.downloadCount : Int)
         - 1 =
       (sampleItem.downloadLimit : Int) -
         ((sampleItem.downloadCount : Int) + 1) ∧
     sampleItem.downloadCount + 1 ≤ sampleItem.downloadLimit) :=
  ⟨by decide,
   (download_limit_spec_c2 7 1000 (fun f n => f ++ toString n)
       sampleItem verifiedOrder "fileA" rfl rfl rfl).2 (by decide)⟩

/-- C10: when the item's `expiresAt` was never set, the expiry check
`orderItem.expiresAt && new Date() > orderItem.expiresAt` is skipped
entirely, so an owned, `VERIFIED` item with remaining quota downloads
successfully at any time. -/
theorem download_no_expiry_c10 (callerId now : Nat)
    (dl : String → Nat → String) (oi : OrderItem) (ord : Order)
    (fileUrl : String)
    (hown : ord.userId = callerId) (hver : ord.paymentStatus = .VERIFIED)
    (hexp : oi.expiresAt = none)
    (hcnt : oi.downloadCount < oi.downloadLimit) :
    requestDownload callerId now dl false false false
        (some (oi, ord, fileUrl)) =
      (.ok (dl fileUrl 3600)
         ((oi.downloadLimit : Int) - (oi.downloadCount : Int) - 1),
       some { oi with downloadCount := oi.downloadCount + 1 }) := by
  simp [requestDownload, hown, hver, Nat.not_le.mpr hcnt, hexp]

/-- C10 witness: the concrete never-activated item (no expiry) of the
verified order is downloadable arbitrarily late (here at time
`10 ^ 15` ms). -/
theorem download_no_expiry_c10_witness :
    requestDownload 7 (10 ^ 15) (fun f _ => f) false false false
        (some (sampleItem, verifiedOrder, "fileA")) =
      (.ok ((fun f _ => f) "fileA" 3600)
         ((sampleItem.downloadLimit : Int) -
            (sampleItem.downloadCount : Int) - 1),
       some { sampleItem with
                downloadCount := sampleItem.downloadCount + 1 }) :=
  download_no_expiry_c10 7 (10 ^ 15) (fun f _ => f) sampleItem
    verifiedOrder "fileA" rfl rfl rfl (by decide)

/-- C6 (amended): the three post-check writes run under one awaited
`Promise.all`, so a rejected audit-log write lands in the handler's
`catch` and the response is the 500 error — the signed URL is NOT
returned — while the independently-dispatched `downloadCount` increment
still commits. -/
theorem download_audit_fail_c6 (callerId now : Nat)
    (dl : String → Nat → String) (oi : OrderItem) (ord : Order)
    (fileUrl : String)
    (hown : ord.userId = callerId) (hver : ord.paymentStatus = .VERIFIED)
    (hexp : oi.expiresAt.any (fun e => decide (e < now)) = false)
    (hcnt : oi.downloadCount < oi.downloadLimit) :
    requestDownload callerId now dl false true false
        (some (oi, ord, fileUrl)) =
      (.serverError,
       some { oi with downloadCount := oi.downloadCount + 1 }) := by
  simp [requestDownload, hown, hver, Nat.not_le.mpr hcnt, hexp]

/-- C6 witness: on the concrete request, a failed audit write yields
the 500 outcome with the count still incremented. -/
theorem download_audit_fail_c6_witness :
    requestDownload 7 2000 (fun f _ => f) false true false
        (some (sampleItem, verifiedOrder, "fileA")) =
      (.serverError,
       some { sampleItem with
                downloadCount := sampleItem.downloadCount + 1 }) :=
  download_audit_fail_c6 7 2000 (fun f _ => f) sampleItem verifiedOrder
    "fileA" rfl rfl rfl (by decide)

/-- C6 counterexample: a request that passes every check and whose
count increment succeeds does NOT return the signed URL when the
audit-log write fails — the outcome is the 500 `serverError`, a
constructor distinct from `ok`. -/
theorem download_audit_cex_c6 :
    (requestDownload 7 0 (fun f _ => f) false true false
        (some (sampleItem, verifiedOrder, "fileA"))).1 =
      .serverError := by
  decide

/-- C4: verifying an existing, not-yet-verified order succeeds and sets
`paymentStatus = VERIFIED`, `orderStatus = COMPLETED`, `paidAt` = the
verification time, and every item's `expiresAt` = verification time
plus 7 days; a download request for one of those items by the owner
more than 7 days later answers `LinkExpired` even with remaining
quota. -/
theorem verify_expiry_c4 (now now2 callerId : Nat)
    (mkUrl : String → String) (dl : String → Nat → String) (o : Order)
    (hnv : ¬ o.paymentStatus = .VERIFIED) :
    ∃ o2, verifyOrder now mkUrl (some o) = .ok o2 ∧
      o2.paymentStatus = .VERIFIED ∧
      o2.orderStatus = .COMPLETED ∧
      o2.paidAt = some now ∧
      (∀ it ∈ o2.items, it.expiresAt = some (now + 7 * dayMs)) ∧
      (∀ it ∈ o2.items, ∀ fileUrl, o2.userId = callerId →
        now + 7 * dayMs < now2 → it.downloadCount < it.downloadLimit →
        (requestDownload callerId now2 dl false false false
            (some (it, o2, fileUrl))).1 = .linkExpired) := by
  simp only [verifyOrder]
  rw [if_neg hnv]
  refine ⟨_, rfl, rfl, rfl, rfl, ?_, ?_⟩
  · intro it hit
    obtain ⟨a, _, rfl⟩ := List.mem_map.1 hit
    rfl
  · intro it hit fileUrl hown h7 hcnt
    obtain ⟨a, _, rfl⟩ := List.mem_map.1 hit
    simp only [requestDownload]
    rw [if_neg, if_neg (Nat.not_le.mpr hcnt), if_pos]
    · simpa using h7
    · simpa using hown

/-- C4 witness: verifying the concrete `SUBMITTED` order at time 0
yields the activated order (item expiry `7 * dayMs`), and downloading
its item 8 days later answers `LinkExpired` although the count (0) is
below the limit (5). -/
theorem verify_expiry_c4_witness :
    verifyOrder 0 (fun s => s)
        (some { sampleOrder with paymentStatus := .SUBMITTED }) =
      .ok activatedOrder ∧
    activatedItem.downloadCount < activatedItem.downloadLimit ∧
    (requestDownload 7 (8 * dayMs) (fun f _ => f) false false false
        (some (activatedItem, activatedOrder, "fileA"))).1 =
      .linkExpired := by
  obtain ⟨o2, heq, -, -, -, -, hdl⟩ :=
    verify_expiry_c4 0 (8 * dayMs) 7 (fun s => s) (fun f _ => f)
      { sampleOrder with paymentStatus := .SUBMITTED } (by decide)
  have hcomp : verifyOrder 0 (fun s => s)
      (some { sampleOrder with paymentStatus := .SUBMITTED }) =
      .ok activatedOrder := by rfl
  rw [hcomp] at heq
  injection heq with heq
  subst heq
  refine ⟨hcomp, by decide, ?_⟩
  exact hdl activatedItem (by simp [activatedOrder]) "fileA" rfl
    (by decide) (by decide)

/-- C3: on a nonempty cart, create-order fails with `NoValidProducts`
exactly when no referenced product is currently active, and otherwise
creates an order totalling the current prices of exactly the active
referenced products, with one item per active product carrying
`downloadLimit = 5`, `downloadCount = 0`, and the product's price and
title snapshotted. -/
theorem create_order_spec_c3 (userId : Nat) (email onum : String)
    (catalog : List Product) (ids : List String) (hne : ids ≠ []) :
    (createOrder userId email onum catalog (some ids) =
        .error .NoValidProducts ↔ activeCartProducts catalog ids = []) ∧
    (activeCartProducts catalog ids ≠ [] →
      createOrder userId email onum catalog (some ids) =
        .ok { id := 0
              orderNumber := onum
              userId := userId
              userEmail := email
              totalAmount :=
                ((activeCartProducts catalog ids).map Product.price).sum
              paymentStatus := .PENDING
              orderStatus := .PENDING
              utrNumber := none
              paidAt := none
              items :=
                (activeCartProducts catalog ids).map mkOrderItem } ∧
      ∀ it ∈ (activeCartProducts catalog ids).map mkOrderItem,
        it.downloadLimit = 5 ∧ it.downloadCount = 0) := by
  constructor
  · by_cases hps : activeCartProducts catalog ids = [] <;>
      simp [createOrder, createOrderRun, hne, hps]
  · intro hps
    refine ⟨by simp [createOrder, createOrderRun, hne, hps], ?_⟩
    intro it hit
    obtain ⟨p, _, rfl⟩ := List.mem_map.1 hit
    exact ⟨rfl, rfl⟩

/-- C3 witness: the spec's scenario — cart `[productA($100, active),
productB($50, deactivated)]` — yields an order containing only
productA's item with `totalAmount = 100`. -/
theorem create_order_spec_c3_witness :
    activeCartProducts catalogAB ["pA", "pB"] = [prodA] ∧
    createOrder 7 "user@example.com" "ORD-202610-ABCDEF" catalogAB
        (some ["pA", "pB"]) =
      .ok { id := 0
            orderNumber := "ORD-202610-ABCDEF"
            userId := 7
            userEmail := "user@example.com"
            totalAmount := 100
            paymentStatus := .PENDING
            orderStatus := .PENDING
            utrNumber := none
            paidAt := none
            items := [mkOrderItem prodA] } :=
  ⟨rfl,
   ((create_order_spec_c3 7 "user@example.com" "ORD-202610-ABCDEF"
       catalogAB ["pA", "pB"] (by decide)).2 (by decide)).1⟩

/-- C7: the cart key survives a create-order request exactly when the
request fails (empty cart, no valid products, order-persistence
failure, or QR-generation failure) and is deleted exactly when the
whole creation succeeds — `redis.del` runs only after `prisma.order.create`
and `generateUPIQRCode` have both succeeded. -/
theorem cart_cleared_iff_success_c7 (userId : Nat) (email onum : String)
    (catalog : List Product) (persistFails qrFails : Bool)
    (cart : Option (List String)) :
    (createOrderRun userId email onum catalog persistFails qrFails
        cart).2 =
      if isOk (createOrderRun userId email onum catalog persistFails
                 qrFails cart).1
      then none else cart := by
  cases cart with
  | none => rfl
  | some ids =>
    by_cases h1 : ids = []
    · simp [createOrderRun, h1, isOk]
    · by_cases h2 : activeCartProducts catalog ids = []
      · simp [createOrderRun, h1, h2, isOk]
      · cases persistFails <;> cases qrFails <;>
          simp [createOrderRun, h1, h2, isOk]

/-- C8 (amended): every generated order number is
`ORD-<year><2-digit month>-<suffix>` where the suffix is the uppercased
first `min 6 n` base-36 fraction digits of the random value
(`n` = the number of digits `toString(36)` prints); it has exactly 6
characters only when the printed expansion has at least 6 digits, and
each suffix character is a digit or an uppercase letter. -/
theorem order_number_format_c8 (year month : Nat) (ds : List Nat)
    (hds : ∀ d ∈ ds, d < 36) :
    generateOrderNumber year month ds =
      "ORD-" ++ toString year ++ pad2 month ++ "-" ++ randomSuffix ds ∧
    (randomSuffix ds).length = min 6 ds.length ∧
    ∀ c ∈ (randomSuffix ds).data, c.isDigit ∨ ('A' ≤ c ∧ c ≤ 'Z') := by
  refine ⟨rfl, ?_, ?_⟩
  · show ((ds.take 6).map base36Char).length = min 6 ds.length
    rw [List.length_map, List.length_take]
  · intro c hc
    obtain ⟨d, hd, rfl⟩ := List.mem_map.1 hc
    have hd36 : d < 36 := hds d (List.take_subset 6 ds hd)
    interval_cases d <;> simp [base36Char]

/-- C8 witness: a random value printing at least six base-36 digits
gives a 6-character suffix. -/
theorem order_number_format_c8_witness :
    (randomSuffix [10, 11, 12, 13, 14, 15, 16]).length =
      min 6 ([10, 11, 12, 13, 14, 15, 16] : List Nat).length :=
  (order_number_format_c8 2026 11 [10, 11, 12, 13, 14, 15, 16]
      (by decide)).2.1

/-- C8 counterexample: `Math.random()` can return exactly 0.5, whose
`toString(36)` is `"0.i"`; then `substring(2, 8).toUpperCase()` is the
single character `"I"` and the generated order number's suffix has
length 1, not 6. -/
theorem order_number_cex_c8 :
    generateOrderNumber 2026 10 [18] = "ORD-202610-I" ∧
    (randomSuffix [18]).length = 1 :=
  ⟨rfl, rfl⟩

/-- C9 (amended): the cart round-trip behaves as specified — adds
accumulate, `get` resolves exactly the active stored products, removes
shrink, and emptying the cart deletes the key — and removing a product
absent from an EXISTING cart succeeds leaving the contents unchanged;
but removing from an absent cart key errors (see the counterexample)
rather than succeeding. -/
theorem cart_roundtrip_c9 (p1 p2 : Product) (pid : String)
    (ids : List String)
    (hne : p1.id ≠ p2.id) (h1 : p1.isActive = true)
    (h2 : p2.isActive = true)
    (hid1 : p1.id ≠ "") (hid2 : p2.id ≠ "") :
    cartAdd [p1, p2] p1.id none = .ok [p1.id] ∧
    cartAdd [p1, p2] p2.id (some [p1.id]) = .ok [p1.id, p2.id] ∧
    cartGet [p1, p2] (some [p1.id, p2.id]) = [p1, p2] ∧
    cartRemove p1.id (some [p1.id, p2.id]) = .ok (some [p2.id]) ∧
    cartGet [p1, p2] (some [p2.id]) = [p2] ∧
    cartRemove p2.id (some [p2.id]) = .ok none ∧
    (pid ∉ ids → ids ≠ [] → cartRemove pid (some ids) = .ok (some ids)) := by
  refine ⟨?_, ?_, ?_, ?_, ?_, ?_, ?_⟩
  · simp [cartAdd, hid1, h1]
  · simp [cartAdd, hid2, h2, Ne.symm hne, hne]
  · simp [cartGet, h1, h2]
  · simp [cartRemove, Ne.symm hne, hne]
  · simp [cartGet, h1, h2, hne]
  · simp [cartRemove]
  · intro hnotin hne2
    have hfil : ids.filter (fun i => i ≠ pid) = ids := by
      rw [List.filter_eq_self]
      intro a ha
      have hane : a ≠ pid := fun h => hnotin (h ▸ ha)
      simpa using hane
    have hred : cartRemove pid (some ids) =
        if ids.filter (fun i => i ≠ pid) = [] then .ok none
        else .ok (some (ids.filter (fun i => i ≠ pid))) := rfl
    rw [hred, hfil, if_neg hne2]

/-- C9 witness: the round-trip on concrete products `p1`, `p2`,
including a no-op removal of an id absent from an existing cart. -/
theorem cart_roundtrip_c9_witness :
    cartAdd [cartP1, cartP2] "p1" none = .ok ["p1"] ∧
    cartAdd [cartP1, cartP2] "p2" (some ["p1"]) = .ok ["p1", "p2"] ∧
    cartGet [cartP1, cartP2] (some ["p1", "p2"]) = [cartP1, cartP2] ∧
    cartRemove "p1" (some ["p1", "p2"]) = .ok (some ["p2"]) ∧
    cartGet [cartP1, cartP2] (some ["p2"]) = [cartP2] ∧
    cartRemove "p2" (some ["p2"]) = .ok none ∧
    cartRemove "p3" (some ["p1"]) = .ok (some ["p1"]) := by
  have H := cart_roundtrip_c9 cartP1 cartP2 "p3" ["p1"]
    (by decide) rfl rfl (by decide) (by decide)
  exact ⟨H.1, H.2.1, H.2.2.1, H.2.2.2.1, H.2.2.2.2.1, H.2.2.2.2.2.1,
    H.2.2.2.2.2.2 (by decide) (by decide)⟩

/-- C9 counterexample: `remove` is not idempotent as an operation —
after `remove(owner, p2)` deletes the key, repeating the same removal
answers the 404 `Cart is empty` error instead of succeeding with the
cart unchanged. -/
theorem cart_remove_cex_c9 :
    cartRemove "p2" (some ["p2"]) = .ok none ∧
    cartRemove "p2" none = .error CartErr.CartEmpty :=
  ⟨rfl, rfl⟩

end DigitalGhar
